import Mathlib

/-!
Verification of the function library of `prometheus-http-query`
(`src/functions.rs`): a typed builder of PromQL query text.  Each Rust
function formats the text of an already-serialized vector expression into a
fixed template, after validating its scalar/string arguments.  We embed the
functions shallowly: expressions are phase-tagged strings, fallible
functions return `Except`, and `f64` scalar arguments are modelled as exact
rationals (`F64` below).
-/

/-- Model of an `f64` scalar argument: an exact rational `num / den`.
The Rust code only compares these values against `0.0` and `1.0` and prints
them with `Display`; both operations depend only on the denoted rational
value, so an exact-rational model is faithful for every value the claims
quantify over (IEEE-754 NaN/infinity payloads are outside this model). -/
structure F64 where
  num : Int
  den : Nat
deriving DecidableEq

/-- Rust `<=` on the modelled values, by cross-multiplication. -/
def F64.le (a b : F64) : Prop := a.num * (b.den : Int) ≤ b.num * (a.den : Int)

/-- Rust `<` on the modelled values, by cross-multiplication. -/
def F64.lt (a b : F64) : Prop := a.num * (b.den : Int) < b.num * (a.den : Int)

instance instF64LeDecidable (a b : F64) : Decidable (F64.le a b) :=
  inferInstanceAs (Decidable (a.num * (b.den : Int) ≤ b.num * (a.den : Int)))

instance instF64LtDecidable (a b : F64) : Decidable (F64.lt a b) :=
  inferInstanceAs (Decidable (a.num * (b.den : Int) < b.num * (a.den : Int)))

/-- The literal `0.0`. -/
def F64.zero : F64 := ⟨0, 1⟩

/-- The literal `1.0`. -/
def F64.one : F64 := ⟨1, 1⟩

/-- Decimal digits of the fractional part `r / den`, by long division
(fuel-bounded; 1200 digits cover every terminating expansion of an `f64`). -/
def fmtFrac : Nat → Nat → Nat → String
  | 0, _, _ => ("")
  | fuel+1, r, den =>
    if r = 0 then ("")
    else toString ((r * 10) / den) ++ fmtFrac fuel ((r * 10) % den) den

/-- Model of Rust `Display` for `f64` (the `{}` format used by the source):
sign, integer part, and the fractional digits only when they are non-zero —
so `300.0` prints as `300` and `0.5` as `0.5`, never with a forced fixed
precision. -/
def F64.display (x : F64) : String :=
  let sign := if x.num < 0 then ("-") else ("")
  let a := x.num.natAbs
  let ip := a / x.den
  let r := a % x.den
  if r = 0 then sign ++ toString ip
  else sign ++ toString ip ++ (".") ++ fmtFrac 1200 r x.den

/-- Modelled from the spec: the `InstantVector` expression phase of the
vector module (not under `src/`) — a tuple struct owning the
already-serialized query text, exactly as destructured by
`let InstantVector(query) = vector` in `src/functions.rs`. -/
structure InstantVector where
  query : String
deriving DecidableEq

/-- Modelled from the spec: the `RangeVector` expression phase of the
vector module (not under `src/`) — a tuple struct owning the
already-serialized query text. -/
structure RangeVector where
  query : String
deriving DecidableEq

/-- Modelled from the spec: payload of the `InvalidFunctionArgument` error
of the error module (not under `src/`), carrying a human-readable message. -/
structure InvalidFunctionArgument where
  message : String
deriving DecidableEq

/-- Modelled from the spec: the library error type, restricted to the only
variant `src/functions.rs` constructs. -/
inductive Error where
  | InvalidFunctionArgument (arg : InvalidFunctionArgument)
deriving DecidableEq

instance instExceptDecidableEq {ε α : Type} [DecidableEq ε] [DecidableEq α] :
    DecidableEq (Except ε α)
  | Except.error a, Except.error b => decidable_of_iff (a = b) (by simp)
  | Except.error _, Except.ok _ => Decidable.isFalse (fun h => Except.noConfusion h)
  | Except.ok _, Except.error _ => Decidable.isFalse (fun h => Except.noConfusion h)
  | Except.ok a, Except.ok b => decidable_of_iff (a = b) (by simp)

namespace functions

/-- Model of the `create_function!` macro body: wrap the inner query text in
`name(...)`. Every macro-generated unary function below is this template
applied to its literal lowercase name. -/
def create_function (func_name : String) (query : String) : String :=
  func_name ++ ("(") ++ query ++ (")")

/-- Macro-generated `abs`. -/
def abs (vector : InstantVector) : InstantVector :=
  InstantVector.mk (create_function ("abs") vector.query)

/-- Macro-generated `absent`. -/
def absent (vector : InstantVector) : InstantVector :=
  InstantVector.mk (create_function ("absent") vector.query)

/-- Macro-generated `absent_over_time`. -/
def absent_over_time (vector : RangeVector) : InstantVector :=
  InstantVector.mk (create_function ("absent_over_time") vector.query)

/-- Macro-generated `ceil`. -/
def ceil (vector : InstantVector) : InstantVector :=
  InstantVector.mk (create_function ("ceil") vector.query)

/-- Macro-generated `changes`. -/
def changes (vector : RangeVector) : InstantVector :=
  InstantVector.mk (create_function ("changes") vector.query)

/-- Model of `clamp` from `src/functions.rs`: no validation of any kind. -/
def clamp (vector : InstantVector) (min : F64) (max : F64) : InstantVector :=
  InstantVector.mk
    (("clamp(") ++ vector.query ++ (", ") ++ min.display ++ (", ") ++ max.display ++ (")"))

/-- Model of `clamp_max` from `src/functions.rs`. -/
def clamp_max (vector : InstantVector) (max : F64) : InstantVector :=
  InstantVector.mk (("clamp_max(") ++ vector.query ++ (", ") ++ max.display ++ (")"))

/-- Model of `clamp_min` from `src/functions.rs`. -/
def clamp_min (vector : InstantVector) (min : F64) : InstantVector :=
  InstantVector.mk (("clamp_min(") ++ vector.query ++ (", ") ++ min.display ++ (")"))

/-- Macro-generated `day_of_month`. -/
def day_of_month (vector : InstantVector) : InstantVector :=
  InstantVector.mk (create_function ("day_of_month") vector.query)

/-- Macro-generated `day_of_week`. -/
def day_of_week (vector : InstantVector) : InstantVector :=
  InstantVector.mk (create_function ("day_of_week") vector.query)

/-- Macro-generated `days_in_month`. -/
def days_in_month (vector : InstantVector) : InstantVector :=
  InstantVector.mk (create_function ("days_in_month") vector.query)

/-- Macro-generated `delta`. -/
def delta (vector : RangeVector) : InstantVector :=
  InstantVector.mk (create_function ("delta") vector.query)

/-- Macro-generated `deriv`. -/
def deriv (vector : RangeVector) : InstantVector :=
  InstantVector.mk (create_function ("deriv") vector.query)

/-- Macro-generated `exp`. -/
def exp (vector : InstantVector) : InstantVector :=
  InstantVector.mk (create_function ("exp") vector.query)

/-- Macro-generated `floor`. -/
def floor (vector : InstantVector) : InstantVector :=
  InstantVector.mk (create_function ("floor") vector.query)

/-- Model of `histogram_quantile` from `src/functions.rs`: infallible, the
quantile is rendered first, before the vector. -/
def histogram_quantile (quantile : F64) (vector : InstantVector) : InstantVector :=
  InstantVector.mk
    (("histogram_quantile(") ++ quantile.display ++ (", ") ++ vector.query ++ (")"))

/-- Model of `holt_winters` from `src/functions.rs`: rejects any smoothing
factor outside the open interval (0, 1), mirroring the source condition
`sf <= 0.0 || tf <= 0.0 || sf >= 1.0 || tf >= 1.0`. -/
def holt_winters (vector : RangeVector) (sf : F64) (tf : F64) : Except Error InstantVector :=
  if F64.le sf F64.zero ∨ F64.le tf F64.zero ∨ F64.le F64.one sf ∨ F64.le F64.one tf then
    Except.error (Error.InvalidFunctionArgument
      ⟨"smoothing factors in holt_winters() must be between 0.0 (excl.) and 1.0 (excl.)"⟩)
  else
    Except.ok (InstantVector.mk
      (("holt_winters(") ++ vector.query ++ (", ") ++ sf.display ++ (", ") ++ tf.display ++ (")")))

/-- Macro-generated `hour`. -/
def hour (vector : InstantVector) : InstantVector :=
  InstantVector.mk (create_function ("hour") vector.query)

/-- Macro-generated `idelta`. -/
def idelta (vector : RangeVector) : InstantVector :=
  InstantVector.mk (create_function ("idelta") vector.query)

/-- Macro-generated `increase`. -/
def increase (vector : RangeVector) : InstantVector :=
  InstantVector.mk (create_function ("increase") vector.query)

/-- Macro-generated `irate`. -/
def irate (vector : RangeVector) : InstantVector :=
  InstantVector.mk (create_function ("irate") vector.query)

/-- Model of `label_join` from `src/functions.rs`: rejects an empty
destination label, then an empty source-label list; otherwise each source
label is wrapped in double quotes verbatim and the list joined with
comma-space, exactly as `format!("label_join({}, \"{}\", \"{}\", {})", ..)`. -/
def label_join (vector : InstantVector) (dst_label : String) (separator : String)
    (src_labels : List String) : Except Error InstantVector :=
  if dst_label.isEmpty then
    Except.error (Error.InvalidFunctionArgument
      ⟨"destination label name in label_join() cannot be empty"⟩)
  else if src_labels.isEmpty then
    Except.error (Error.InvalidFunctionArgument
      ⟨"list of source label names in label_join() cannot be empty"⟩)
  else
    let src := String.intercalate (", ") (src_labels.map (fun l => ("\"") ++ l ++ ("\"")))
    Except.ok (InstantVector.mk
      (("label_join(") ++ vector.query ++ (", \"") ++ dst_label ++ ("\", \"") ++ separator
        ++ ("\", ") ++ src ++ (")")))

/-- Model of `label_replace` from `src/functions.rs`: the only check is
that the destination label is non-empty; all four string arguments are then
embedded verbatim inside double quotes. -/
def label_replace (vector : InstantVector) (dst_label : String) (replacement : String)
    (src_label : String) (regex : String) : Except Error InstantVector :=
  if dst_label.isEmpty then
    Except.error (Error.InvalidFunctionArgument
      ⟨"destination label name in label_replace() cannot be empty"⟩)
  else
    Except.ok (InstantVector.mk
      (("label_replace(") ++ vector.query ++ (", \"") ++ dst_label ++ ("\", \"")
        ++ replacement ++ ("\", \"") ++ src_label ++ ("\", \"") ++ regex ++ ("\")")))

/-- Macro-generated `ln`. -/
def ln (vector : InstantVector) : InstantVector :=
  InstantVector.mk (create_function ("ln") vector.query)

/-- Macro-generated `log2`. -/
def log2 (vector : InstantVector) : InstantVector :=
  InstantVector.mk (create_function ("log2") vector.query)

/-- Macro-generated `log10`. -/
def log10 (vector : InstantVector) : InstantVector :=
  InstantVector.mk (create_function ("log10") vector.query)

/-- Macro-generated `minute`. -/
def minute (vector : InstantVector) : InstantVector :=
  InstantVector.mk (create_function ("minute") vector.query)

/-- Macro-generated `month`. -/
def month (vector : InstantVector) : InstantVector :=
  InstantVector.mk (create_function ("month") vector.query)

/-- Model of `predict_linear` from `src/functions.rs`. -/
def predict_linear (vector : RangeVector) (seconds : F64) : InstantVector :=
  InstantVector.mk
    (("predict_linear(") ++ vector.query ++ (", ") ++ seconds.display ++ (")"))

/-- Macro-generated `rate`. -/
def rate (vector : RangeVector) : InstantVector :=
  InstantVector.mk (create_function ("rate") vector.query)

/-- Macro-generated `resets`. -/
def resets (vector : RangeVector) : InstantVector :=
  InstantVector.mk (create_function ("resets") vector.query)

/-- Model of `round` from `src/functions.rs`: when `to_nearest` is absent
the trailing argument is omitted entirely. -/
def round (vector : InstantVector) (to_nearest : Option F64) : InstantVector :=
  match to_nearest with
  | some nearest =>
    InstantVector.mk (("round(") ++ vector.query ++ (", ") ++ nearest.display ++ (")"))
  | none =>
    InstantVector.mk (("round(") ++ vector.query ++ (")"))

/-- Macro-generated `scalar`. -/
def scalar (vector : InstantVector) : InstantVector :=
  InstantVector.mk (create_function ("scalar") vector.query)

/-- Macro-generated `sgn`. -/
def sgn (vector : InstantVector) : InstantVector :=
  InstantVector.mk (create_function ("sgn") vector.query)

/-- Macro-generated `sort`. -/
def sort (vector : InstantVector) : InstantVector :=
  InstantVector.mk (create_function ("sort") vector.query)

/-- Macro-generated `sort_desc`. -/
def sort_desc (vector : InstantVector) : InstantVector :=
  InstantVector.mk (create_function ("sort_desc") vector.query)

/-- Macro-generated `timestamp`. -/
def timestamp (vector : InstantVector) : InstantVector :=
  InstantVector.mk (create_function ("timestamp") vector.query)

/-- Macro-generated `year`. -/
def year (vector : InstantVector) : InstantVector :=
  InstantVector.mk (create_function ("year") vector.query)

/-- Macro-generated `avg_over_time`. -/
def avg_over_time (vector : RangeVector) : InstantVector :=
  InstantVector.mk (create_function ("avg_over_time") vector.query)

/-- Macro-generated `min_over_time`. -/
def min_over_time (vector : RangeVector) : InstantVector :=
  InstantVector.mk (create_function ("min_over_time") vector.query)

/-- Macro-generated `max_over_time`. -/
def max_over_time (vector : RangeVector) : InstantVector :=
  InstantVector.mk (create_function ("max_over_time") vector.query)

/-- Macro-generated `sum_over_time`. -/
def sum_over_time (vector : RangeVector) : InstantVector :=
  InstantVector.mk (create_function ("sum_over_time") vector.query)

/-- Macro-generated `count_over_time`. -/
def count_over_time (vector : RangeVector) : InstantVector :=
  InstantVector.mk (create_function ("count_over_time") vector.query)

/-- Model of `quantile_over_time` from `src/functions.rs`: infallible, the
quantile is rendered first, before the vector. -/
def quantile_over_time (quantile : F64) (vector : RangeVector) : InstantVector :=
  InstantVector.mk
    (("quantile_over_time(") ++ quantile.display ++ (", ") ++ vector.query ++ (")"))

/-- Macro-generated `stddev_over_time`. -/
def stddev_over_time (vector : RangeVector) : InstantVector :=
  InstantVector.mk (create_function ("stddev_over_time") vector.query)

/-- Macro-generated `stdvar_over_time`. -/
def stdvar_over_time (vector : RangeVector) : InstantVector :=
  InstantVector.mk (create_function ("stdvar_over_time") vector.query)

/-- Macro-generated `last_over_time`. -/
def last_over_time (vector : RangeVector) : InstantVector :=
  InstantVector.mk (create_function ("last_over_time") vector.query)

/-- Macro-generated `present_over_time`. -/
def present_over_time (vector : RangeVector) : InstantVector :=
  InstantVector.mk (create_function ("present_over_time") vector.query)

end functions

/-- Follows the spec's words only (for comparison with the source): wrap a
string in double quotes with internal double quotes and backslashes escaped. -/
def escapeStringSpec (s : String) : String :=
  String.mk (s.data.flatMap (fun c =>
    if c = ('\\') then [('\\'), ('\\')]
    else if c = ('"') then [('\\'), ('"')]
    else [c]))

/-- Claim C1: `holt_winters` fails with `InvalidFunctionArgument` (producing
no query) whenever `sf` or `tf` lies outside the open interval (0, 1) — in
particular for any of the values 0.0, 1.0, -0.1, 1.1 — and succeeds with the
text `holt_winters(<inner>, <sf>, <tf>)` tagged `InstantVector` whenever
both factors lie strictly inside (0, 1). -/
theorem holt_winters_validates_smoothing_factors :
    (∀ (v : RangeVector) (sf tf : F64),
      functions.holt_winters v sf tf =
        if F64.lt F64.zero sf ∧ F64.lt sf F64.one ∧ F64.lt F64.zero tf ∧ F64.lt tf F64.one then
          Except.ok (InstantVector.mk
            (("holt_winters(") ++ v.query ++ (", ") ++ sf.display ++ (", ") ++ tf.display
              ++ (")")))
        else
          Except.error (Error.InvalidFunctionArgument
            ⟨"smoothing factors in holt_winters() must be between 0.0 (excl.) and 1.0 (excl.)"⟩)) ∧
    (∀ v : RangeVector,
      functions.holt_winters v ⟨0, 1⟩ ⟨1, 2⟩ = Except.error (Error.InvalidFunctionArgument
        ⟨"smoothing factors in holt_winters() must be between 0.0 (excl.) and 1.0 (excl.)"⟩) ∧
      functions.holt_winters v ⟨1, 1⟩ ⟨1, 2⟩ = Except.error (Error.InvalidFunctionArgument
        ⟨"smoothing factors in holt_winters() must be between 0.0 (excl.) and 1.0 (excl.)"⟩) ∧
      functions.holt_winters v ⟨-1, 10⟩ ⟨1, 2⟩ = Except.error (Error.InvalidFunctionArgument
        ⟨"smoothing factors in holt_winters() must be between 0.0 (excl.) and 1.0 (excl.)"⟩) ∧
      functions.holt_winters v ⟨11, 10⟩ ⟨1, 2⟩ = Except.error (Error.InvalidFunctionArgument
        ⟨"smoothing factors in holt_winters() must be between 0.0 (excl.) and 1.0 (excl.)"⟩) ∧
      functions.holt_winters v ⟨1, 2⟩ ⟨0, 1⟩ = Except.error (Error.InvalidFunctionArgument
        ⟨"smoothing factors in holt_winters() must be between 0.0 (excl.) and 1.0 (excl.)"⟩) ∧
      functions.holt_winters v ⟨1, 2⟩ ⟨1, 1⟩ = Except.error (Error.InvalidFunctionArgument
        ⟨"smoothing factors in holt_winters() must be between 0.0 (excl.) and 1.0 (excl.)"⟩) ∧
      functions.holt_winters v ⟨1, 2⟩ ⟨-1, 10⟩ = Except.error (Error.InvalidFunctionArgument
        ⟨"smoothing factors in holt_winters() must be between 0.0 (excl.) and 1.0 (excl.)"⟩) ∧
      functions.holt_winters v ⟨1, 2⟩ ⟨11, 10⟩ = Except.error (Error.InvalidFunctionArgument
        ⟨"smoothing factors in holt_winters() must be between 0.0 (excl.) and 1.0 (excl.)"⟩)) := by
  constructor
  · intro v sf tf
    have h : (F64.le sf F64.zero ∨ F64.le tf F64.zero ∨ F64.le F64.one sf ∨ F64.le F64.one tf) ↔
        ¬ (F64.lt F64.zero sf ∧ F64.lt sf F64.one ∧ F64.lt F64.zero tf ∧ F64.lt tf F64.one) := by
      simp only [F64.le, F64.lt, F64.zero, F64.one]
      omega
    unfold functions.holt_winters
    by_cases hc : F64.lt F64.zero sf ∧ F64.lt sf F64.one ∧ F64.lt F64.zero tf ∧ F64.lt tf F64.one
    · rw [if_neg (fun hcode => (h.mp hcode) hc), if_pos hc]
    · rw [if_pos (h.mpr hc), if_neg hc]
  · intro v
    exact ⟨rfl, rfl, rfl, rfl, rfl, rfl, rfl, rfl⟩

/-- Claim C2: `label_join` fails with `InvalidFunctionArgument` on an empty
destination label, fails on an empty source-label list, and otherwise
succeeds with the inner expression first, then the quoted destination
label, then the quoted separator, then the source labels individually
quote-wrapped and comma-joined in the order supplied; in particular the
two-label example serializes exactly as documented. -/
theorem label_join_validation_and_serialization :
    (∀ (v : InstantVector) (dst_label separator : String) (src_labels : List String),
      functions.label_join v dst_label separator src_labels =
        if dst_label = ("") then
          Except.error (Error.InvalidFunctionArgument
            ⟨"destination label name in label_join() cannot be empty"⟩)
        else if src_labels = [] then
          Except.error (Error.InvalidFunctionArgument
            ⟨"list of source label names in label_join() cannot be empty"⟩)
        else
          Except.ok (InstantVector.mk
            (("label_join(") ++ v.query ++ (", \"") ++ dst_label ++ ("\", \"") ++ separator
              ++ ("\", ")
              ++ String.intercalate (", ") (src_labels.map (fun l => ("\"") ++ l ++ ("\"")))
              ++ (")")))) ∧
    functions.label_join
        (InstantVector.mk ("some_metric\x7blabel1=\"value1\",label2=\"value2\"\x7d"))
        ("new_label") (":") [("label1"), ("label2")] =
      Except.ok (InstantVector.mk
        ("label_join(some_metric\x7blabel1=\"value1\",label2=\"value2\"\x7d, \"new_label\", \":\", \"label1\", \"label2\")")) := by
  constructor
  · intro v d s ls
    unfold functions.label_join
    simp only [String.isEmpty_iff, List.isEmpty_iff]
  · decide

/-- Claim C3 (counterexample): contrary to the claim, internal double
quotes in a string argument are NOT escaped — `label_join` with destination
label `a"b` emits the argument verbatim, which differs from the
spec-described escaped rendering. -/
theorem label_join_does_not_escape_quotes :
    functions.label_join (InstantVector.mk ("m")) ("a\"b") (":") [("l")] =
      Except.ok (InstantVector.mk ("label_join(m, \"a\"b\", \":\", \"l\")")) ∧
    ("label_join(m, \"a\"b\", \":\", \"l\")") ≠
      ("label_join(m, \"") ++ escapeStringSpec ("a\"b") ++ ("\", \":\", \"l\")") := by
  exact ⟨by decide, by decide⟩

/-- Claim C3 (amended): every string argument of `label_join` and
`label_replace` is wrapped in double quotes but embedded verbatim — internal
double quotes and backslashes are not escaped, so the emitted fragment is a
well-formed quoted string only when the argument contains neither. -/
theorem function_string_arguments_embedded_verbatim :
    (∀ (v : InstantVector) (dst_label separator : String) (src_labels : List String),
      dst_label ≠ ("") → src_labels ≠ [] →
      functions.label_join v dst_label separator src_labels =
        Except.ok (InstantVector.mk
          (("label_join(") ++ v.query ++ (", \"") ++ dst_label ++ ("\", \"") ++ separator
            ++ ("\", ")
            ++ String.intercalate (", ") (src_labels.map (fun l => ("\"") ++ l ++ ("\"")))
            ++ (")")))) ∧
    (∀ (v : InstantVector) (dst_label replacement src_label regex : String),
      dst_label ≠ ("") →
      functions.label_replace v dst_label replacement src_label regex =
        Except.ok (InstantVector.mk
          (("label_replace(") ++ v.query ++ (", \"") ++ dst_label ++ ("\", \"") ++ replacement
            ++ ("\", \"") ++ src_label ++ ("\", \"") ++ regex ++ ("\")")))) := by
  constructor
  · intro v d s ls hd hls
    have hd2 : ¬ (d.isEmpty = true) := by simpa [String.isEmpty_iff] using hd
    have hls2 : ¬ (ls.isEmpty = true) := by simpa [List.isEmpty_iff] using hls
    unfold functions.label_join
    rw [if_neg hd2, if_neg hls2]
  · intro v d r s rx hd
    have hd2 : ¬ (d.isEmpty = true) := by simpa [String.isEmpty_iff] using hd
    unfold functions.label_replace
    rw [if_neg hd2]

/-- Claim C3 (witness): the amended statement applied to arguments
containing a double quote and a backslash. -/
theorem function_string_arguments_embedded_verbatim_witness :
    (functions.label_join (InstantVector.mk ("m")) ("a\"b") (":") [("l")] =
      Except.ok (InstantVector.mk ("label_join(m, \"a\"b\", \":\", \"l\")"))) ∧
    (functions.label_replace (InstantVector.mk ("m")) ("x\\y") ("a\"b") ("s") ("r") =
      Except.ok (InstantVector.mk ("label_replace(m, \"x\\y\", \"a\"b\", \"s\", \"r\")"))) := by
  refine ⟨?_, ?_⟩
  · exact (function_string_arguments_embedded_verbatim.1 (InstantVector.mk ("m")) ("a\"b") (":")
      [("l")] (by decide) (by decide)).trans (by decide)
  · exact (function_string_arguments_embedded_verbatim.2 (InstantVector.mk ("m")) ("x\\y")
      ("a\"b") ("s") ("r") (by decide)).trans (by decide)

/-- Claim C4: every macro-generated unary function of the library accepts
exactly its declared input phase, always succeeds, and returns a vector of
the declared output phase wrapping exactly `f(q)` where `f` is the literal
lowercase function identifier and `q` the inner text unchanged — all of
them instances of the single `create_function` template. -/
theorem unary_functions_wrap_query_in_name :
    ∀ q : String,
      functions.abs (InstantVector.mk q) = InstantVector.mk (("abs(") ++ q ++ (")")) ∧
      functions.absent (InstantVector.mk q) = InstantVector.mk (("absent(") ++ q ++ (")")) ∧
      functions.absent_over_time (RangeVector.mk q) =
        InstantVector.mk (("absent_over_time(") ++ q ++ (")")) ∧
      functions.ceil (InstantVector.mk q) = InstantVector.mk (("ceil(") ++ q ++ (")")) ∧
      functions.changes (RangeVector.mk q) = InstantVector.mk (("changes(") ++ q ++ (")")) ∧
      functions.day_of_month (InstantVector.mk q) =
        InstantVector.mk (("day_of_month(") ++ q ++ (")")) ∧
      functions.day_of_week (InstantVector.mk q) =
        InstantVector.mk (("day_of_week(") ++ q ++ (")")) ∧
      functions.days_in_month (InstantVector.mk q) =
        InstantVector.mk (("days_in_month(") ++ q ++ (")")) ∧
      functions.delta (RangeVector.mk q) = InstantVector.mk (("delta(") ++ q ++ (")")) ∧
      functions.deriv (RangeVector.mk q) = InstantVector.mk (("deriv(") ++ q ++ (")")) ∧
      functions.exp (InstantVector.mk q) = InstantVector.mk (("exp(") ++ q ++ (")")) ∧
      functions.floor (InstantVector.mk q) = InstantVector.mk (("floor(") ++ q ++ (")")) ∧
      functions.hour (InstantVector.mk q) = InstantVector.mk (("hour(") ++ q ++ (")")) ∧
      functions.idelta (RangeVector.mk q) = InstantVector.mk (("idelta(") ++ q ++ (")")) ∧
      functions.increase (RangeVector.mk q) = InstantVector.mk (("increase(") ++ q ++ (")")) ∧
      functions.irate (RangeVector.mk q) = InstantVector.mk (("irate(") ++ q ++ (")")) ∧
      functions.ln (InstantVector.mk q) = InstantVector.mk (("ln(") ++ q ++ (")")) ∧
      functions.log2 (InstantVector.mk q) = InstantVector.mk (("log2(") ++ q ++ (")")) ∧
      functions.log10 (InstantVector.mk q) = InstantVector.mk (("log10(") ++ q ++ (")")) ∧
      functions.minute (InstantVector.mk q) = InstantVector.mk (("minute(") ++ q ++ (")")) ∧
      functions.month (InstantVector.mk q) = InstantVector.mk (("month(") ++ q ++ (")")) ∧
      functions.rate (RangeVector.mk q) = InstantVector.mk (("rate(") ++ q ++ (")")) ∧
      functions.resets (RangeVector.mk q) = InstantVector.mk (("resets(") ++ q ++ (")")) ∧
      functions.scalar (InstantVector.mk q) = InstantVector.mk (("scalar(") ++ q ++ (")")) ∧
      functions.sgn (InstantVector.mk q) = InstantVector.mk (("sgn(") ++ q ++ (")")) ∧
      functions.sort (InstantVector.mk q) = InstantVector.mk (("sort(") ++ q ++ (")")) ∧
      functions.sort_desc (InstantVector.mk q) =
        InstantVector.mk (("sort_desc(") ++ q ++ (")")) ∧
      functions.timestamp (InstantVector.mk q) =
        InstantVector.mk (("timestamp(") ++ q ++ (")")) ∧
      functions.year (InstantVector.mk q) = InstantVector.mk (("year(") ++ q ++ (")")) ∧
      functions.avg_over_time (RangeVector.mk q) =
        InstantVector.mk (("avg_over_time(") ++ q ++ (")")) ∧
      functions.min_over_time (RangeVector.mk q) =
        InstantVector.mk (("min_over_time(") ++ q ++ (")")) ∧
      functions.max_over_time (RangeVector.mk q) =
        InstantVector.mk (("max_over_time(") ++ q ++ (")")) ∧
      functions.sum_over_time (RangeVector.mk q) =
        InstantVector.mk (("sum_over_time(") ++ q ++ (")")) ∧
      functions.count_over_time (RangeVector.mk q) =
        InstantVector.mk (("count_over_time(") ++ q ++ (")")) ∧
      functions.stddev_over_time (RangeVector.mk q) =
        InstantVector.mk (("stddev_over_time(") ++ q ++ (")")) ∧
      functions.stdvar_over_time (RangeVector.mk q) =
        InstantVector.mk (("stdvar_over_time(") ++ q ++ (")")) ∧
      functions.last_over_time (RangeVector.mk q) =
        InstantVector.mk (("last_over_time(") ++ q ++ (")")) ∧
      functions.present_over_time (RangeVector.mk q) =
        InstantVector.mk (("present_over_time(") ++ q ++ (")")) :=
  fun q =>
    ⟨rfl, rfl, rfl, rfl, rfl, rfl, rfl, rfl, rfl, rfl, rfl, rfl, rfl, rfl, rfl, rfl, rfl, rfl,
      rfl, rfl, rfl, rfl, rfl, rfl, rfl, rfl, rfl, rfl, rfl, rfl, rfl, rfl, rfl, rfl, rfl, rfl,
      rfl, rfl⟩

/-- Claim C5: `round` without a nearest argument serializes to
`round(q)` with no trailing argument, with `some n` it serializes to
`round(q, n)`, and the absent case is a genuinely distinct output shape
from substituting the default `0`. -/
theorem round_optional_nearest_shape :
    (∀ q : String,
      functions.round (InstantVector.mk q) none = InstantVector.mk (("round(") ++ q ++ (")"))) ∧
    (∀ (q : String) (n : F64),
      functions.round (InstantVector.mk q) (some n) =
        InstantVector.mk (("round(") ++ q ++ (", ") ++ n.display ++ (")"))) ∧
    (∀ q : String,
      functions.round (InstantVector.mk q) none ≠
        functions.round (InstantVector.mk q) (some F64.zero)) := by
  refine ⟨fun _ => rfl, fun _ _ => rfl, fun q h => ?_⟩
  have h2 := congrArg (fun x => x.query.length) h
  simp only [functions.round, String.length_append] at h2
  have e0 : (F64.display F64.zero).length = 1 := rfl
  have e1 : (("round(") : String).length = 6 := rfl
  have e2 : (((")")) : String).length = 1 := rfl
  have e3 : (((", ")) : String).length = 2 := rfl
  omega

/-- Claim C6: `clamp` applied to the selector text
`some_metric{some_label="some_value"}` with min 0.5 and max 0.75 serializes
to exactly `clamp(some_metric{some_label="some_value"}, 0.5, 0.75)`. -/
theorem clamp_example_serialization :
    functions.clamp (InstantVector.mk ("some_metric\x7bsome_label=\"some_value\"\x7d"))
        ⟨5, 10⟩ ⟨75, 100⟩ =
      InstantVector.mk ("clamp(some_metric\x7bsome_label=\"some_value\"\x7d, 0.5, 0.75)") := by
  decide

/-- Claim C7: `label_replace` with an empty destination label fails with
`InvalidFunctionArgument` whose message names the offending function
(`label_replace`) and the violated constraint (the destination label cannot
be empty); no expression is produced. -/
theorem label_replace_empty_destination_fails :
    (∀ (v : InstantVector) (replacement src_label regex : String),
      functions.label_replace v ("") replacement src_label regex =
        Except.error (Error.InvalidFunctionArgument
          ⟨"destination label name in label_replace() cannot be empty"⟩)) ∧
    (∃ pre post : String,
      ("destination label name in label_replace() cannot be empty") =
        pre ++ ("label_replace") ++ post) ∧
    (∃ pre post : String,
      ("destination label name in label_replace() cannot be empty") =
        pre ++ ("cannot be empty") ++ post) := by
  refine ⟨fun v r s rx => rfl, ?_, ?_⟩
  · exact ⟨("destination label name in "), ("() cannot be empty"), by decide⟩
  · exact ⟨("destination label name in label_replace() "), (""), by decide⟩

/-- Claim C9: `histogram_quantile` and `quantile_over_time` perform no
validation on the quantile — for every modelled value, including values
outside [0, 1], they return (their type is not fallible) the emitted text
with the quantile rendered first, before the vector. -/
theorem quantile_functions_unvalidated :
    ∀ (quantile : F64) (q : String),
      functions.histogram_quantile quantile (InstantVector.mk q) =
        InstantVector.mk (("histogram_quantile(") ++ quantile.display ++ (", ") ++ q ++ (")")) ∧
      functions.quantile_over_time quantile (RangeVector.mk q) =
        InstantVector.mk (("quantile_over_time(") ++ quantile.display ++ (", ") ++ q ++ (")")) :=
  fun _ _ => ⟨rfl, rfl⟩

/-- Claim C10: `label_replace` checks only the destination label — any
non-empty destination succeeds for all replacement, source-label and regex
arguments, empty ones included — and `clamp` imposes no ordering between
min and max, emitting `clamp(q, min, max)` unconditionally. -/
theorem label_replace_and_clamp_no_other_validation :
    (∀ (v : InstantVector) (dst_label replacement src_label regex : String),
      dst_label ≠ ("") →
      functions.label_replace v dst_label replacement src_label regex =
        Except.ok (InstantVector.mk
          (("label_replace(") ++ v.query ++ (", \"") ++ dst_label ++ ("\", \"") ++ replacement
            ++ ("\", \"") ++ src_label ++ ("\", \"") ++ regex ++ ("\")")))) ∧
    (∀ (q : String) (min max : F64),
      functions.clamp (InstantVector.mk q) min max =
        InstantVector.mk
          (("clamp(") ++ q ++ (", ") ++ min.display ++ (", ") ++ max.display ++ (")"))) := by
  constructor
  · intro v d r s rx hd
    have hd2 : ¬ (d.isEmpty = true) := by simpa [String.isEmpty_iff] using hd
    unfold functions.label_replace
    rw [if_neg hd2]
  · intro q mn mx
    rfl

/-- Claim C10 (witness): `label_replace` succeeding with empty replacement,
source label and regex, and `clamp` emitting its text with min 1 greater
than max 0. -/
theorem label_replace_and_clamp_no_other_validation_witness :
    (functions.label_replace (InstantVector.mk ("m")) ("d") ("") ("") ("") =
      Except.ok (InstantVector.mk ("label_replace(m, \"d\", \"\", \"\", \"\")"))) ∧
    F64.lt ⟨0, 1⟩ ⟨1, 1⟩ ∧
    functions.clamp (InstantVector.mk ("m")) ⟨1, 1⟩ ⟨0, 1⟩ =
      InstantVector.mk ("clamp(m, 1, 0)") := by
  refine ⟨?_, by decide, ?_⟩
  · exact (label_replace_and_clamp_no_other_validation.1 (InstantVector.mk ("m")) ("d") ("") ("")
      ("") (by decide)).trans (by decide)
  · exact (label_replace_and_clamp_no_other_validation.2 ("m") ⟨1, 1⟩ ⟨0, 1⟩).trans (by decide)
